import Mathlib

/-!
Verification of the Cloud Resource Gateway of `deployment-helper/html-to-images`.

The embedding models the two core modules:

* `src/image-generation-pipeline/src/gcp/storage.ts` — the `GCSService`
  class (upload, download, delete, exists, signed URLs, lifecycle rules).
* `src/task-management-service/src/index.ts` — the `PubSubManager` class
  (topic resolution cache, single and batch publication, topic creation).

The backend (the `@google-cloud/storage` / `@google-cloud/pubsub` client
libraries) is external to the repository; it is modelled as a structure of
primitive operations (`GcsBackend`, `BusBackend`) over an explicit bucket
state, so that both the happy path (an honest backend acting on the bucket)
and arbitrary backend failures can be expressed.  Each service operation
additionally returns the list of backend calls it made, so that "no backend
call is made" is expressible.  Errors in the TypeScript source are plain
`Error` values carrying a message string; they are modelled as the message
`String`.
-/

set_option autoImplicit false

/-- Raw byte content of a stored object (a `Buffer` in the source). -/
abbrev ByteSeq := List Nat

/-- A stored object in the bucket: content bytes, MIME content type, and the
`customTime` metadata stamp (ISO time string in the source). -/
structure StoredObject where
  content : ByteSeq
  contentType : String
  customTime : String
deriving DecidableEq

/-- The condition of a bucket lifecycle rule; only the
`daysSinceCustomTime` field is relevant to `storage.ts`. -/
structure LifecycleCondition where
  daysSinceCustomTime : Option Int
deriving DecidableEq

/-- A bucket lifecycle rule: an action type (such as `"Delete"`) and an
optional condition, mirroring `rule.condition?.daysSinceCustomTime`. -/
structure LifecycleRule where
  actionType : String
  condition : Option LifecycleCondition
deriving DecidableEq

/-- Association-list update mirroring overwrite-on-re-upload of a key. -/
def setObj : List (String × StoredObject) → String → StoredObject → List (String × StoredObject)
  | [], k, v => [(k, v)]
  | (k', v') :: rest, k, v => if k' = k then (k, v) :: rest else (k', v') :: setObj rest k v

/-- Association-list lookup of a stored object by key. -/
def lookupObj : List (String × StoredObject) → String → Option StoredObject
  | [], _ => none
  | (k', v) :: rest, k => if k' = k then some v else lookupObj rest k

/-- The state of the backend bucket: the stored objects and the bucket-level
lifecycle rules (`metadata.lifecycle?.rule || []`). -/
structure BucketState where
  objects : List (String × StoredObject)
  rules : List LifecycleRule
deriving DecidableEq

/-- A record of one call made to the storage backend, used to state which
backend calls an operation performs. -/
inductive GcsCall where
  | save (key : String) (content : ByteSeq) (contentType : String) (customTime : String)
  | existsCheck (key : String)
  | downloadCall (key : String)
  | deleteCall (key : String)
  | signCall (key : String) (expires : Int) (action : String)
  | getMetadata
  | addRule (rule : LifecycleRule)
deriving DecidableEq

/-- The storage backend as seen by `GCSService`: each primitive either
succeeds (possibly updating the bucket) or fails with an error message. -/
structure GcsBackend where
  save : String → ByteSeq → String → String → BucketState → Except String BucketState
  existsCheck : String → BucketState → Except String (Bool × BucketState)
  download : String → BucketState → Except String (ByteSeq × BucketState)
  deleteCall : String → BucketState → Except String BucketState
  signCall : String → Int → String → BucketState → Except String (String × BucketState)
  getMetadata : BucketState → Except String (List LifecycleRule × BucketState)
  addRule : LifecycleRule → BucketState → Except String BucketState

/-- An honest backend: the primitives act on the bucket state exactly as a
live, reachable GCS bucket would, and transport never fails. -/
def gcsHonest : GcsBackend where
  save := fun key content ct now st =>
    .ok { st with objects := setObj st.objects key ⟨content, ct, now⟩ }
  existsCheck := fun key st => .ok ((lookupObj st.objects key).isSome, st)
  download := fun key st =>
    match lookupObj st.objects key with
    | some o => .ok (o.content, st)
    | none => .error "No such object"
  deleteCall := fun key st =>
    match lookupObj st.objects key with
    | some _ => .ok { st with objects := (st.objects.filter (fun p => !(p.1 = key))) }
    | none => .error "No such object"
  signCall := fun key expires action st =>
    .ok ("https://signed/" ++ key ++ "/" ++ action ++ "/" ++ toString expires, st)
  getMetadata := fun st => .ok (st.rules, st)
  addRule := fun r st => .ok { st with rules := st.rules ++ [r] }

/-- The empty-or-whitespace key guard `!fileName || fileName.trim() === ""`.
`trim` removes leading and trailing whitespace, so the trimmed string is
empty exactly when every character of the string is whitespace. -/
def badFileName (fileName : String) : Prop :=
  fileName = "" ∨ fileName.data.all Char.isWhitespace = true

instance (fileName : String) : Decidable (badFileName fileName) :=
  inferInstanceAs (Decidable (_ ∨ _))

/-- `GCSService.uploadObject`: validates the key and `expirationDays`, then
saves the object with `customTime` set to the current time and returns the
`gs://bucket/key` URI.  Backend failures are wrapped with the prefix
`Failed to upload object: `.  Also returns the backend calls made. -/
def uploadObject (B : GcsBackend) (bucketName fileName : String) (content : ByteSeq)
    (contentType : String) (expirationDays : Int) (now : String) (st : BucketState) :
    Except String (String × BucketState) × List GcsCall :=
  if badFileName fileName then
    (.error "fileName cannot be empty", [])
  else if expirationDays < 0 then
    (.error "expirationDays must be a positive number", [])
  else
    match B.save fileName content contentType now st with
    | .ok st' =>
        (.ok ("gs://" ++ bucketName ++ "/" ++ fileName, st'),
         [.save fileName content contentType now])
    | .error e =>
        (.error ("Failed to upload object: " ++ e),
         [.save fileName content contentType now])

/-- `GCSService.getObject`: validates the key, checks existence, downloads.
The internal "does not exist" throw and every backend failure are caught by
the same handler and re-thrown wrapped as `Failed to get object: ...`. -/
def getObject (B : GcsBackend) (bucketName fileName : String) (st : BucketState) :
    Except String (ByteSeq × BucketState) × List GcsCall :=
  if badFileName fileName then
    (.error "fileName cannot be empty", [])
  else
    match B.existsCheck fileName st with
    | .error e => (.error ("Failed to get object: " ++ e), [.existsCheck fileName])
    | .ok (false, _) =>
        (.error ("Failed to get object: File " ++ fileName ++ " does not exist in bucket "
            ++ bucketName),
         [.existsCheck fileName])
    | .ok (true, st') =>
        match B.download fileName st' with
        | .error e =>
            (.error ("Failed to get object: " ++ e),
             [.existsCheck fileName, .downloadCall fileName])
        | .ok (content, st'') =>
            (.ok (content, st''), [.existsCheck fileName, .downloadCall fileName])

/-- `GCSService.deleteObject`: validates the key, deletes; backend failures
(including deleting an absent key) are wrapped as `Failed to delete object: `. -/
def deleteObject (B : GcsBackend) (fileName : String) (st : BucketState) :
    Except String BucketState × List GcsCall :=
  if badFileName fileName then
    (.error "fileName cannot be empty", [])
  else
    match B.deleteCall fileName st with
    | .ok st' => (.ok st', [.deleteCall fileName])
    | .error e => (.error ("Failed to delete object: " ++ e), [.deleteCall fileName])

/-- `GCSService.createSignedUrl`: validates the key and
`expirationMinutes > 0`, then asks the backend for a v4 signed URL expiring
at `now + expirationMinutes * 60 * 1000` milliseconds. -/
def createSignedUrl (B : GcsBackend) (fileName : String) (expirationMinutes : Int)
    (action : String) (nowMs : Int) (st : BucketState) :
    Except String (String × BucketState) × List GcsCall :=
  if badFileName fileName then
    (.error "fileName cannot be empty", [])
  else if expirationMinutes ≤ 0 then
    (.error "expirationMinutes must be a positive number", [])
  else
    let expires := nowMs + expirationMinutes * 60 * 1000
    match B.signCall fileName expires action st with
    | .ok (url, st') => (.ok (url, st'), [.signCall fileName expires action])
    | .error e => (.error ("Failed to create signed URL: " ++ e), [.signCall fileName expires action])

/-- `rule.condition?.daysSinceCustomTime !== undefined` for one rule. -/
def isCustomTimeRule (r : LifecycleRule) : Bool :=
  match r.condition with
  | some c => c.daysSinceCustomTime.isSome
  | none => false

/-- `existingRules.some(rule => rule.condition?.daysSinceCustomTime !== undefined)`. -/
def hasCustomTimeRule (rules : List LifecycleRule) : Bool :=
  rules.any isCustomTimeRule

/-- `GCSService.setupAutoDelete`: validates `daysBeforeDeletion > 0`, reads
the existing lifecycle rules, skips if a rule with a `daysSinceCustomTime`
condition already exists (whatever its day count), otherwise appends the
new Delete rule. -/
def setupAutoDelete (B : GcsBackend) (daysBeforeDeletion : Int) (st : BucketState) :
    Except String BucketState × List GcsCall :=
  if daysBeforeDeletion ≤ 0 then
    (.error "daysBeforeDeletion must be a positive number", [])
  else
    match B.getMetadata st with
    | .error e => (.error ("Failed to setup auto-delete: " ++ e), [.getMetadata])
    | .ok (existingRules, st') =>
        if hasCustomTimeRule existingRules then
          (.ok st', [.getMetadata])
        else
          let rule : LifecycleRule := ⟨"Delete", some ⟨some daysBeforeDeletion⟩⟩
          match B.addRule rule st' with
          | .ok st'' => (.ok st'', [.getMetadata, .addRule rule])
          | .error e => (.error ("Failed to setup auto-delete: " ++ e), [.getMetadata, .addRule rule])

/-- `GCSService.objectExists`: validates the key, then asks the backend;
any failure of the check itself is swallowed and reported as `false`. -/
def objectExists (B : GcsBackend) (fileName : String) (st : BucketState) :
    Except String Bool × List GcsCall :=
  if badFileName fileName then
    (.error "fileName cannot be empty", [])
  else
    match B.existsCheck fileName st with
    | .ok (b, _) => (.ok b, [.existsCheck fileName])
    | .error _ => (.ok false, [.existsCheck fileName])

/-- The validation errors thrown by `GCSService` before any backend call. -/
def isValidationError (e : String) : Prop :=
  e = "fileName cannot be empty" ∨
  e = "expirationDays must be a positive number" ∨
  e = "expirationMinutes must be a positive number" ∨
  e = "daysBeforeDeletion must be a positive number"

instance (e : String) : Decidable (isValidationError e) :=
  inferInstanceAs (Decidable (_ ∨ _ ∨ _ ∨ _))

/-!
The `PubSubManager` of `src/task-management-service/src/index.ts`.

A `TopicHandle` models a `Topic` object returned by `this.pubsub.topic(name)`
or `this.pubsub.createTopic(name)`: it carries the topic name and a
construction counter distinguishing separately constructed handles.
-/

/-- A resolved topic handle; `ctorId` distinguishes distinct constructions. -/
structure TopicHandle where
  name : String
  ctorId : Nat
deriving DecidableEq

/-- The mutable state of the `PubSubManager` singleton: the `topics` cache
(`Map<string, Topic>`) and the next construction counter. -/
structure PubSubState where
  topics : List (String × TopicHandle)
  nextId : Nat
deriving DecidableEq

/-- `Map.get` on the topic cache. -/
def findTopic : List (String × TopicHandle) → String → Option TopicHandle
  | [], _ => none
  | (k, v) :: rest, name => if k = name then some v else findTopic rest name

/-- `Map.set` on the topic cache: replaces an existing entry in place or
appends a new one. -/
def setTopic : List (String × TopicHandle) → String → TopicHandle → List (String × TopicHandle)
  | [], name, t => [(name, t)]
  | (k, v) :: rest, name, t =>
      if k = name then (name, t) :: rest else (k, v) :: setTopic rest name t

/-- `PubSubManager.getTopic`: returns the cached handle if present,
otherwise constructs a new handle, caches it and returns it. -/
def getTopic (st : PubSubState) (topicName : String) : TopicHandle × PubSubState :=
  match findTopic st.topics topicName with
  | some t => (t, st)
  | none =>
      let t : TopicHandle := ⟨topicName, st.nextId⟩
      (t, ⟨setTopic st.topics topicName t, st.nextId + 1⟩)

/-- A message handed to `publishMessage(s)`: the payload (modelled by its
JSON serialization, the bytes of `Buffer.from(JSON.stringify(data))`) and
the optional string-to-string attribute map. -/
structure BusMessage where
  data : String
  attributes : Option (List (String × String))
deriving DecidableEq

/-- The messaging backend: `topic.publishMessage` either returns a message
ID or fails; the `Nat` argument is the index of the publish call within the
current operation (the backend may answer each call differently).
`createTopicCall` models `pubsub.createTopic`. -/
structure BusBackend where
  publish : TopicHandle → BusMessage → Nat → Except String String
  createTopicCall : String → Except String Unit

/-- `PubSubManager.publishMessage`: resolves the topic (caching it), sends
one message and returns the backend-assigned message ID; a failure is
re-thrown unchanged.  The third component is the list of messages actually
handed to the backend, each with the handle it was published against. -/
def publishMessage (B : BusBackend) (st : PubSubState) (topicName : String)
    (msg : BusMessage) : Except String String × PubSubState × List (TopicHandle × BusMessage) :=
  let r := getTopic st topicName
  match B.publish r.1 msg 0 with
  | .ok id => (.ok id, r.2, [(r.1, msg)])
  | .error e => (.error e, r.2, [])

/-- The `for (const message of messages)` loop of `publishMessages`:
publishes sequentially starting at call index `k`, accumulating message IDs;
stops at the first failure.  Returns the result and the list of messages
actually published (with their handle), in order. -/
def publishLoop (B : BusBackend) (t : TopicHandle) :
    List BusMessage → Nat → Except String (List String) × List (TopicHandle × BusMessage)
  | [], _ => (.ok [], [])
  | m :: rest, k =>
      match B.publish t m k with
      | .error e => (.error e, [])
      | .ok id =>
          match publishLoop B t rest (k + 1) with
          | (.ok ids, lg) => (.ok (id :: ids), (t, m) :: lg)
          | (.error e, lg) => (.error e, (t, m) :: lg)

/-- `PubSubManager.publishMessages`: resolves the topic once (caching it),
then publishes the messages one at a time in order against that handle;
any failure aborts the loop and is re-thrown unchanged, with no rollback of
the messages already sent. -/
def publishMessages (B : BusBackend) (st : PubSubState) (topicName : String)
    (messages : List BusMessage) :
    Except String (List String) × PubSubState × List (TopicHandle × BusMessage) :=
  let r := getTopic st topicName
  let s := publishLoop B r.1 messages 0
  (s.1, r.2, s.2)

/-- `PubSubManager.createTopic`: asks the backend to create the topic and,
on success, stores the newly created handle in the cache (replacing any
cached handle for that name); a failure is re-thrown and leaves the cache
untouched. -/
def createTopic (B : BusBackend) (st : PubSubState) (topicName : String) :
    Except String Unit × PubSubState :=
  match B.createTopicCall topicName with
  | .error e => (.error e, st)
  | .ok _ =>
      let t : TopicHandle := ⟨topicName, st.nextId⟩
      (.ok (), ⟨setTopic st.topics topicName t, st.nextId + 1⟩)

/-- The number of lifecycle rules on the bucket whose condition carries a
`daysSinceCustomTime` field (the deletion-by-custom-time rules). -/
def countCustomTimeRules (rules : List LifecycleRule) : Nat :=
  (rules.filter isCustomTimeRule).length

/-- A storage backend whose every primitive fails with a transport error. -/
def gcsFailing : GcsBackend where
  save := fun _ _ _ _ _ => .error "transport failure"
  existsCheck := fun _ _ => .error "transport failure"
  download := fun _ _ => .error "transport failure"
  deleteCall := fun _ _ => .error "transport failure"
  signCall := fun _ _ _ _ => .error "transport failure"
  getMetadata := fun _ => .error "transport failure"
  addRule := fun _ _ => .error "transport failure"

/-- A storage backend whose existence check answers `true` but whose
download fails with a message of the backend's choosing: a non-absent
backend failure scenario for `getObject`. -/
def gcsPhantom : GcsBackend where
  save := gcsHonest.save
  existsCheck := fun _ st => .ok (true, st)
  download := fun key _ => .error ("File " ++ key ++ " does not exist in bucket b")
  deleteCall := gcsHonest.deleteCall
  signCall := gcsHonest.signCall
  getMetadata := gcsHonest.getMetadata
  addRule := gcsHonest.addRule

/-- A messaging backend that numbers message IDs by the publish call index
and always succeeds. -/
def busSeq : BusBackend where
  publish := fun _ _ k => .ok (toString k)
  createTopicCall := fun _ => .ok ()

/-- A messaging backend whose first publish succeeds and whose every later
publish fails. -/
def busFailAfterOne : BusBackend where
  publish := fun _ _ k => if k = 0 then .ok "id0" else .error "publish failed"
  createTopicCall := fun _ => .ok ()

/-! ### Helper lemmas -/

theorem lookupObj_setObj (l : List (String × StoredObject)) (k : String) (v : StoredObject) :
    lookupObj (setObj l k v) k = some v := by
  induction l with
  | nil => simp [setObj, lookupObj]
  | cons p rest ih =>
      obtain ⟨k', v'⟩ := p
      by_cases h : k' = k
      · simp [setObj, lookupObj, h]
      · simp [setObj, lookupObj, h, ih]

/-- C1: for every non-empty, non-whitespace key, every content, every content
type and every `expirationDays ≥ 0`, `uploadObject` succeeds, stores the
content with the uploaded content type (and the current time as
`customTime`), and a subsequent `getObject` of the same key returns exactly
the uploaded bytes. -/
theorem upload_then_download_roundtrip (bn key : String) (content : ByteSeq) (ct : String)
    (d : Int) (now : String) (st : BucketState)
    (hk : ¬ badFileName key) (hd : 0 ≤ d) :
    ∃ st', (uploadObject gcsHonest bn key content ct d now st).1
        = .ok ("gs://" ++ bn ++ "/" ++ key, st') ∧
      lookupObj st'.objects key = some ⟨content, ct, now⟩ ∧
      (getObject gcsHonest bn key st').1 = .ok (content, st') := by
  refine ⟨{ st with objects := setObj st.objects key ⟨content, ct, now⟩ }, ?_, ?_, ?_⟩
  · simp [uploadObject, hk, not_lt.mpr hd, gcsHonest]
  · exact lookupObj_setObj st.objects key ⟨content, ct, now⟩
  · simp [getObject, hk, gcsHonest, lookupObj_setObj]

/-- Witness for C1 at a concrete input. -/
theorem upload_then_download_roundtrip_witness :
    ∃ st', (uploadObject gcsHonest "bkt" "images/test.svg" [60, 115, 118, 103]
        "image/svg+xml" 7 "2024-01-01T00:00:00Z" ⟨[], []⟩).1
        = .ok ("gs://bkt/images/test.svg", st') ∧
      lookupObj st'.objects "images/test.svg"
        = some ⟨[60, 115, 118, 103], "image/svg+xml", "2024-01-01T00:00:00Z"⟩ ∧
      (getObject gcsHonest "bkt" "images/test.svg" st').1
        = .ok ([60, 115, 118, 103], st') :=
  upload_then_download_roundtrip "bkt" "images/test.svg" [60, 115, 118, 103]
    "image/svg+xml" 7 "2024-01-01T00:00:00Z" ⟨[], []⟩ (by decide) (by decide)

/-- C8: the `expirationDays` argument does not influence the outcome of
`uploadObject`: for any backend, any two non-negative values of
`expirationDays` yield the same backend calls (same data, content type and
`customTime` stamp, which is the current time) and the same result URI. -/
theorem upload_ignores_expirationDays (B : GcsBackend) (bn key : String)
    (content : ByteSeq) (ct : String) (d1 d2 : Int) (now : String) (st : BucketState)
    (h1 : 0 ≤ d1) (h2 : 0 ≤ d2) :
    uploadObject B bn key content ct d1 now st = uploadObject B bn key content ct d2 now st := by
  by_cases hk : badFileName key
  · simp [uploadObject, hk]
  · simp [uploadObject, hk, not_lt.mpr h1, not_lt.mpr h2]

/-- Witness for C8 at a concrete input. -/
theorem upload_ignores_expirationDays_witness :
    uploadObject gcsHonest "bkt" "k.png" [7] "image/png" 0 "T0" ⟨[], []⟩
      = uploadObject gcsHonest "bkt" "k.png" [7] "image/png" 365 "T0" ⟨[], []⟩ :=
  upload_ignores_expirationDays gcsHonest "bkt" "k.png" [7] "image/png" 0 365 "T0" ⟨[], []⟩
    (by decide) (by decide)

/-- C5: `uploadObject` with an empty key, `createSignedUrl` with
`expirationMinutes = 0`, and `uploadObject` with `expirationDays = -1` each
fail with a validation error, and in each case the list of backend calls
made is empty. -/
theorem validation_rejections :
    (∀ (B : GcsBackend) (bn : String) (content : ByteSeq) (ct : String) (d : Int)
        (now : String) (st : BucketState),
      ∃ e, uploadObject B bn "" content ct d now st = (.error e, []) ∧ isValidationError e) ∧
    (∀ (B : GcsBackend) (key action : String) (nowMs : Int) (st : BucketState),
      ∃ e, createSignedUrl B key 0 action nowMs st = (.error e, []) ∧ isValidationError e) ∧
    (∀ (B : GcsBackend) (bn key : String) (content : ByteSeq) (ct : String)
        (now : String) (st : BucketState), ¬ badFileName key →
      uploadObject B bn key content ct (-1) now st
          = (.error "expirationDays must be a positive number", []) ∧
        isValidationError "expirationDays must be a positive number") := by
  refine ⟨?_, ?_, ?_⟩
  · intro B bn content ct d now st
    exact ⟨"fileName cannot be empty", by simp [uploadObject, badFileName], by
      simp [isValidationError]⟩
  · intro B key action nowMs st
    by_cases hk : badFileName key
    · exact ⟨"fileName cannot be empty", by simp [createSignedUrl, hk], by
        simp [isValidationError]⟩
    · exact ⟨"expirationMinutes must be a positive number", by
        simp [createSignedUrl, hk], by simp [isValidationError]⟩
  · intro B bn key content ct now st hk
    refine ⟨by simp [uploadObject, hk], by simp [isValidationError]⟩

/-- Witness for C5 at concrete inputs. -/
theorem validation_rejections_witness :
    (∃ e, uploadObject gcsHonest "bkt" "" [1] "text/plain" 7 "T0" ⟨[], []⟩
        = (.error e, []) ∧ isValidationError e) ∧
    (∃ e, createSignedUrl gcsHonest "k.txt" 0 "read" 0 ⟨[], []⟩
        = (.error e, []) ∧ isValidationError e) ∧
    (uploadObject gcsHonest "bkt" "k.txt" [1] "text/plain" (-1) "T0" ⟨[], []⟩
        = (.error "expirationDays must be a positive number", []) ∧
      isValidationError "expirationDays must be a positive number") :=
  ⟨validation_rejections.1 gcsHonest "bkt" [1] "text/plain" 7 "T0" ⟨[], []⟩,
   validation_rejections.2.1 gcsHonest "k.txt" "read" 0 ⟨[], []⟩,
   validation_rejections.2.2 gcsHonest "bkt" "k.txt" [1] "text/plain" "T0" ⟨[], []⟩ (by decide)⟩

/-- C6 counterexample: `objectExists` does raise for the empty key — the
key validation throws before the existence check, so the claim "for every
key, exists never raises" fails at `key = ""`. -/
theorem exists_raises_on_empty_key :
    (objectExists gcsHonest "" ⟨[], []⟩).1 = .error "fileName cannot be empty" := by
  simp [objectExists, badFileName]

/-- C6 (amended to non-empty, non-whitespace keys): `objectExists` never
raises — it always returns a boolean — and any failure of the existence
check itself is collapsed into the result `false`. -/
theorem exists_never_raises (B : GcsBackend) (key : String) (st : BucketState)
    (hk : ¬ badFileName key) :
    (∃ b : Bool, (objectExists B key st).1 = .ok b) ∧
    (∀ e, B.existsCheck key st = .error e → (objectExists B key st).1 = .ok false) := by
  constructor
  · cases h : B.existsCheck key st with
    | ok p => exact ⟨p.1, by simp [objectExists, hk, h]⟩
    | error e => exact ⟨false, by simp [objectExists, hk, h]⟩
  · intro e he
    simp [objectExists, hk, he]

/-- Witness for the amended C6 at a concrete input with a failing backend. -/
theorem exists_never_raises_witness :
    (∃ b : Bool, (objectExists gcsFailing "k.txt" ⟨[], []⟩).1 = .ok b) ∧
    (∀ e, gcsFailing.existsCheck "k.txt" ⟨[], []⟩ = .error e →
      (objectExists gcsFailing "k.txt" ⟨[], []⟩).1 = .ok false) :=
  exists_never_raises gcsFailing "k.txt" ⟨[], []⟩ (by decide)

/-- C7 counterexample: the absent-object failure and a non-absent backend
download failure are not distinguishable to the caller as distinct
structured error kinds — both are generic errors carrying a message, and
at this concrete input (an empty bucket versus a backend whose existence
check answers `true` and whose download fails with a message of the
backend's choosing) `getObject` returns the very same error value. -/
theorem download_errors_not_distinct_kinds :
    lookupObj (BucketState.mk [] []).objects "k" = none ∧
    (∃ e, gcsPhantom.download "k" ⟨[], []⟩ = .error e) ∧
    (getObject gcsHonest "b" "k" ⟨[], []⟩).1 = (getObject gcsPhantom "b" "k" ⟨[], []⟩).1 ∧
    (getObject gcsHonest "b" "k" ⟨[], []⟩).1
      = .error "Failed to get object: File k does not exist in bucket b" := by
  refine ⟨rfl, ⟨"File k does not exist in bucket b", rfl⟩, ?_, ?_⟩ <;> rfl

/-- C7 (amended): for a valid key, `getObject` reports the absent-object
case as a wrapped generic error whose message says the file does not
exist, and wraps any other backend failure (of the existence check or of
the download) into a generic error with the prefix
`Failed to get object: ` followed by the original cause's message — the
cause is preserved in the message and no raw backend error is propagated
unwrapped, but both failure cases share the same generic error kind. -/
theorem download_error_wrapping (B : GcsBackend) (bn key : String) (st : BucketState)
    (hk : ¬ badFileName key) :
    (∀ st', B.existsCheck key st = .ok (false, st') →
      (getObject B bn key st).1
        = .error ("Failed to get object: File " ++ key ++ " does not exist in bucket " ++ bn)) ∧
    (∀ st' e, B.existsCheck key st = .ok (true, st') → B.download key st' = .error e →
      (getObject B bn key st).1 = .error ("Failed to get object: " ++ e)) ∧
    (∀ e, B.existsCheck key st = .error e →
      (getObject B bn key st).1 = .error ("Failed to get object: " ++ e)) := by
  refine ⟨?_, ?_, ?_⟩
  · intro st' h
    simp [getObject, hk, h]
  · intro st' e h hd
    simp [getObject, hk, h, hd]
  · intro e h
    simp [getObject, hk, h]

/-- Witness for the amended C7 at concrete inputs. -/
theorem download_error_wrapping_witness :
    (getObject gcsHonest "b" "k" ⟨[], []⟩).1
      = .error ("Failed to get object: File " ++ "k" ++ " does not exist in bucket " ++ "b") ∧
    (getObject gcsFailing "b" "k" ⟨[], []⟩).1
      = .error ("Failed to get object: " ++ "transport failure") :=
  ⟨(download_error_wrapping gcsHonest "b" "k" ⟨[], []⟩ (by decide)).1 ⟨[], []⟩ rfl,
   (download_error_wrapping gcsFailing "b" "k" ⟨[], []⟩ (by decide)).2.2 "transport failure" rfl⟩

theorem filter_customTime_nil (rules : List LifecycleRule)
    (h : hasCustomTimeRule rules = false) : rules.filter isCustomTimeRule = [] := by
  induction rules with
  | nil => rfl
  | cons r rest ih =>
      rw [hasCustomTimeRule, List.any_cons, Bool.or_eq_false_iff] at h
      rw [List.filter_cons_of_neg (by simp [h.1])]
      exact ih h.2

theorem countCustomTimeRules_pos (rules : List LifecycleRule)
    (h : hasCustomTimeRule rules = true) : 1 ≤ countCustomTimeRules rules := by
  unfold hasCustomTimeRule at h
  rw [List.any_eq_true] at h
  obtain ⟨r, hr, hp⟩ := h
  unfold countCustomTimeRules
  rw [Nat.succ_le, List.length_pos]
  intro hnil
  have hm := List.mem_filter.mpr ⟨hr, hp⟩
  rw [hnil] at hm
  cases hm

/-- C4: `setupAutoDelete` is idempotent — on any bucket with at most one
deletion-by-custom-time rule, two calls with any positive day counts
(equal or different) succeed and leave exactly one deletion-by-custom-time
rule on the bucket: the second call finds a rule whose condition has a
`daysSinceCustomTime` field (whatever its day count), so it only reads the
metadata and never calls `addLifecycleRule`. -/
theorem setupAutoDelete_idempotent (d1 d2 : Int) (st : BucketState)
    (h1 : 0 < d1) (h2 : 0 < d2) (h0 : countCustomTimeRules st.rules ≤ 1) :
    ∃ st1, (setupAutoDelete gcsHonest d1 st).1 = .ok st1 ∧
      (setupAutoDelete gcsHonest d2 st1).1 = .ok st1 ∧
      (setupAutoDelete gcsHonest d2 st1).2 = [.getMetadata] ∧
      countCustomTimeRules st1.rules = 1 := by
  cases hh : hasCustomTimeRule st.rules with
  | false =>
      refine ⟨{ st with rules := st.rules ++ [⟨"Delete", some ⟨some d1⟩⟩] }, ?_, ?_, ?_, ?_⟩
      · simp [setupAutoDelete, gcsHonest, not_le.mpr h1, hh]
      · simp [setupAutoDelete, gcsHonest, not_le.mpr h2, hasCustomTimeRule, isCustomTimeRule]
      · simp [setupAutoDelete, gcsHonest, not_le.mpr h2, hasCustomTimeRule, isCustomTimeRule]
      · simp only [countCustomTimeRules, List.filter_append, filter_customTime_nil st.rules hh]
        simp [isCustomTimeRule]
  | true =>
      refine ⟨st, ?_, ?_, ?_, ?_⟩
      · simp [setupAutoDelete, gcsHonest, not_le.mpr h1, hh]
      · simp [setupAutoDelete, gcsHonest, not_le.mpr h2, hh]
      · simp [setupAutoDelete, gcsHonest, not_le.mpr h2, hh]
      · exact le_antisymm h0 (countCustomTimeRules_pos st.rules hh)

/-- Witness for C4 at concrete inputs (two different day counts). -/
theorem setupAutoDelete_idempotent_witness :
    ∃ st1, (setupAutoDelete gcsHonest 7 ⟨[], []⟩).1 = .ok st1 ∧
      (setupAutoDelete gcsHonest 30 st1).1 = .ok st1 ∧
      (setupAutoDelete gcsHonest 30 st1).2 = [.getMetadata] ∧
      countCustomTimeRules st1.rules = 1 :=
  setupAutoDelete_idempotent 7 30 ⟨[], []⟩ (by decide) (by decide) (by decide)

theorem findTopic_setTopic_same (l : List (String × TopicHandle)) (k : String) (t : TopicHandle) :
    findTopic (setTopic l k t) k = some t := by
  induction l with
  | nil => simp [setTopic, findTopic]
  | cons p rest ih =>
      obtain ⟨k', v'⟩ := p
      by_cases h : k' = k
      · simp [setTopic, findTopic, h]
      · simp [setTopic, findTopic, h, ih]

theorem findTopic_setTopic_other (l : List (String × TopicHandle)) (k k' : String)
    (t : TopicHandle) (h : k' ≠ k) : findTopic (setTopic l k t) k' = findTopic l k' := by
  induction l with
  | nil => simp [setTopic, findTopic, Ne.symm h]
  | cons p rest ih =>
      obtain ⟨k0, v0⟩ := p
      by_cases h0 : k0 = k
      · subst h0
        have h2 : ¬ (k0 = k') := fun hc => h hc.symm
        simp [setTopic, findTopic, h2]
      · by_cases h1 : k0 = k'
        · subst h1
          simp [setTopic, findTopic, h0]
        · simp [setTopic, findTopic, h0, h1, ih]

theorem findTopic_getTopic_state (st : PubSubState) (n n' : String) (t : TopicHandle)
    (h : findTopic st.topics n' = some t) :
    findTopic ((getTopic st n).2).topics n' = some t := by
  unfold getTopic
  cases hc : findTopic st.topics n with
  | some t0 => simpa using h
  | none =>
      by_cases he : n' = n
      · subst he; rw [hc] at h; cases h
      · simpa [findTopic_setTopic_other st.topics n n' _ he] using h

theorem publishLoop_all_ok (B : BusBackend) (t : TopicHandle) (f : Nat → String) :
    ∀ (msgs : List BusMessage) (k : Nat),
      (∀ i (hi : i < msgs.length), B.publish t (msgs.get ⟨i, hi⟩) (k + i) = .ok (f (k + i))) →
      publishLoop B t msgs k
        = (.ok ((List.range msgs.length).map (fun i => f (k + i))),
           msgs.map (fun m => (t, m))) := by
  intro msgs
  induction msgs with
  | nil => intro k _; simp [publishLoop]
  | cons m rest ih =>
      intro k h
      have h0 : B.publish t m k = .ok (f k) := by simpa using h 0 (by simp)
      have hr : ∀ i (hi : i < rest.length),
          B.publish t (rest.get ⟨i, hi⟩) ((k + 1) + i) = .ok (f ((k + 1) + i)) := by
        intro i hi
        have hx := h (i + 1) (by simpa using Nat.succ_lt_succ hi)
        have e1 : k + (i + 1) = (k + 1) + i := by omega
        simpa [e1] using hx
      simp only [publishLoop]
      rw [h0, ih (k + 1) hr]
      simp [List.range_succ_eq_map, List.map_map, Function.comp,
        Nat.add_comm, Nat.add_assoc, Nat.add_left_comm]

theorem publishLoop_first_fail (B : BusBackend) (t : TopicHandle) (f : Nat → String)
    (e : String) (m : BusMessage) (post : List BusMessage) :
    ∀ (pre : List BusMessage) (k : Nat),
      (∀ i (hi : i < pre.length), B.publish t (pre.get ⟨i, hi⟩) (k + i) = .ok (f (k + i))) →
      B.publish t m (k + pre.length) = .error e →
      publishLoop B t (pre ++ m :: post) k = (.error e, pre.map (fun msg => (t, msg))) := by
  intro pre
  induction pre with
  | nil =>
      intro k _ hfail
      simp only [List.length_nil, Nat.add_zero] at hfail
      simp only [List.nil_append, publishLoop]
      rw [hfail]
      simp
  | cons p rest ih =>
      intro k h hfail
      have h0 : B.publish t p k = .ok (f k) := by simpa using h 0 (by simp)
      have hr : ∀ i (hi : i < rest.length),
          B.publish t (rest.get ⟨i, hi⟩) ((k + 1) + i) = .ok (f ((k + 1) + i)) := by
        intro i hi
        have hx := h (i + 1) (by simpa using Nat.succ_lt_succ hi)
        have e1 : k + (i + 1) = (k + 1) + i := by omega
        simpa [e1] using hx
      have hfail2 : B.publish t m ((k + 1) + rest.length) = .error e := by
        have e1 : k + (p :: rest).length = (k + 1) + rest.length := by
          simp only [List.length_cons]; omega
        rwa [e1] at hfail
      simp only [List.cons_append, publishLoop, List.append_eq]
      rw [h0, ih (k + 1) hr hfail2]
      simp

/-- C2: when every individual publish succeeds, `publishMessages` sends the
messages one at a time in input order against the single resolved topic
handle and returns exactly one message ID per message, in input order
(`f i` being the backend's ID for the `i`-th message). -/
theorem publishBatch_all_ok (B : BusBackend) (st : PubSubState) (name : String)
    (msgs : List BusMessage) (f : Nat → String)
    (h : ∀ i (hi : i < msgs.length),
      B.publish (getTopic st name).1 (msgs.get ⟨i, hi⟩) i = .ok (f i)) :
    publishMessages B st name msgs
      = (.ok ((List.range msgs.length).map f), (getTopic st name).2,
         msgs.map (fun m => ((getTopic st name).1, m))) := by
  have hl := publishLoop_all_ok B (getTopic st name).1 f msgs 0 (by simpa using h)
  simp only [publishMessages]
  rw [hl]
  simp

/-- Witness for C2: a batch of two messages against a backend that numbers
its message IDs sequentially. -/
theorem publishBatch_all_ok_witness :
    publishMessages busSeq ⟨[], 0⟩ "jobs" [⟨"a", none⟩, ⟨"b", none⟩]
      = (.ok ((List.range ([⟨"a", none⟩, ⟨"b", none⟩] : List BusMessage).length).map
            (fun i => toString i)),
         (getTopic ⟨[], 0⟩ "jobs").2,
         ([⟨"a", none⟩, ⟨"b", none⟩] : List BusMessage).map
           (fun m => ((getTopic ⟨[], 0⟩ "jobs").1, m))) :=
  publishBatch_all_ok busSeq ⟨[], 0⟩ "jobs" [⟨"a", none⟩, ⟨"b", none⟩]
    (fun i => toString i) (fun _ _ => rfl)

/-- C3: if the publish of message K is the first to fail, the batch call
fails with exactly that failure, and precisely messages 1..K-1 were handed
to the backend (in order, against the resolved handle) — no rollback. -/
theorem publishBatch_partial_failure (B : BusBackend) (st : PubSubState) (name : String)
    (pre : List BusMessage) (m : BusMessage) (post : List BusMessage) (f : Nat → String)
    (e : String)
    (hok : ∀ i (hi : i < pre.length),
      B.publish (getTopic st name).1 (pre.get ⟨i, hi⟩) i = .ok (f i))
    (hfail : B.publish (getTopic st name).1 m pre.length = .error e) :
    publishMessages B st name (pre ++ m :: post)
      = (.error e, (getTopic st name).2,
         pre.map (fun msg => ((getTopic st name).1, msg))) := by
  have hl := publishLoop_first_fail B (getTopic st name).1 f e m post pre 0
    (by simpa using hok) (by simpa using hfail)
  simp only [publishMessages]
  rw [hl]

/-- Witness for C3: a batch of two messages whose second publish fails —
the first stays published, the call fails with the second's failure. -/
theorem publishBatch_partial_failure_witness :
    publishMessages busFailAfterOne ⟨[], 0⟩ "jobs" ([⟨"a", none⟩] ++ ⟨"b", none⟩ :: [])
      = (.error "publish failed", (getTopic ⟨[], 0⟩ "jobs").2,
         ([⟨"a", none⟩] : List BusMessage).map
           (fun msg => ((getTopic ⟨[], 0⟩ "jobs").1, msg))) :=
  publishBatch_partial_failure busFailAfterOne ⟨[], 0⟩ "jobs" [⟨"a", none⟩] ⟨"b", none⟩ []
    (fun _ => "id0") "publish failed"
    (fun i hi => by
      have hz : i = 0 := by simpa using hi
      subst hz
      rfl)
    rfl

theorem findTopic_after_getTopic (st : PubSubState) (name : String) :
    findTopic ((getTopic st name).2).topics name = some (getTopic st name).1 := by
  unfold getTopic
  cases hc : findTopic st.topics name with
  | some t => exact hc
  | none => simp [findTopic_setTopic_same]

/-- C10: `publishMessages` on the empty message list succeeds with an empty
list of message IDs, hands no message to the backend, and (as a side
effect) leaves the topic resolved and cached. -/
theorem publishBatch_empty (B : BusBackend) (st : PubSubState) (name : String) :
    publishMessages B st name [] = (.ok [], (getTopic st name).2, []) ∧
    findTopic ((publishMessages B st name []).2.1).topics name = some (getTopic st name).1 := by
  constructor
  · simp [publishMessages, publishLoop]
  · exact findTopic_after_getTopic st name

/-- C9: topic resolution is cached for the lifetime of the registry — a
cached name resolves to the same handle with no new construction and no
state change; an uncached name gets a fresh handle which is stored; and no
operation (`getTopic`, `publishMessage`, `publishMessages`, `createTopic`)
ever evicts or invalidates a cache entry, except that `createTopic` on a
name replaces that name's entry with the newly created handle. -/
theorem topic_cache_lifetime :
    (∀ (st : PubSubState) (name : String) (t : TopicHandle),
      findTopic st.topics name = some t → getTopic st name = (t, st)) ∧
    (∀ (st : PubSubState) (name : String),
      findTopic st.topics name = none →
      getTopic st name = (⟨name, st.nextId⟩,
        ⟨setTopic st.topics name ⟨name, st.nextId⟩, st.nextId + 1⟩) ∧
      findTopic ((getTopic st name).2).topics name = some ⟨name, st.nextId⟩) ∧
    (∀ (st : PubSubState) (n n' : String) (t : TopicHandle),
      findTopic st.topics n' = some t →
      findTopic ((getTopic st n).2).topics n' = some t) ∧
    (∀ (B : BusBackend) (st : PubSubState) (n : String) (msg : BusMessage) (n' : String)
        (t : TopicHandle), findTopic st.topics n' = some t →
      findTopic ((publishMessage B st n msg).2.1).topics n' = some t) ∧
    (∀ (B : BusBackend) (st : PubSubState) (n : String) (msgs : List BusMessage) (n' : String)
        (t : TopicHandle), findTopic st.topics n' = some t →
      findTopic ((publishMessages B st n msgs).2.1).topics n' = some t) ∧
    (∀ (B : BusBackend) (st : PubSubState) (n n' : String) (t : TopicHandle),
      findTopic st.topics n' = some t → n' ≠ n →
      findTopic ((createTopic B st n).2).topics n' = some t) ∧
    (∀ (B : BusBackend) (st : PubSubState) (n : String),
      (createTopic B st n).1 = .ok () →
      findTopic ((createTopic B st n).2).topics n = some ⟨n, st.nextId⟩) := by
  refine ⟨?_, ?_, ?_, ?_, ?_, ?_, ?_⟩
  · intro st name t h
    simp [getTopic, h]
  · intro st name h
    refine ⟨by simp [getTopic, h], ?_⟩
    simp [getTopic, h, findTopic_setTopic_same]
  · intro st n n' t h
    exact findTopic_getTopic_state st n n' t h
  · intro B st n msg n' t h
    have hst : (publishMessage B st n msg).2.1 = (getTopic st n).2 := by
      simp only [publishMessage]
      cases B.publish (getTopic st n).1 msg 0 <;> rfl
    rw [hst]
    exact findTopic_getTopic_state st n n' t h
  · intro B st n msgs n' t h
    have hst : (publishMessages B st n msgs).2.1 = (getTopic st n).2 := rfl
    rw [hst]
    exact findTopic_getTopic_state st n n' t h
  · intro B st n n' t h hne
    simp only [createTopic]
    cases B.createTopicCall n with
    | error e => exact h
    | ok u => simpa [findTopic_setTopic_other st.topics n n' _ hne] using h
  · intro B st n h
    cases hb : B.createTopicCall n with
    | error e => exact absurd h (by simp [createTopic, hb])
    | ok u => simp [createTopic, hb, findTopic_setTopic_same]

/-- Witness for C9 at concrete inputs. -/
theorem topic_cache_lifetime_witness :
    getTopic ⟨[("jobs", ⟨"jobs", 0⟩)], 1⟩ "jobs"
      = (⟨"jobs", 0⟩, ⟨[("jobs", ⟨"jobs", 0⟩)], 1⟩) ∧
    findTopic ((getTopic ⟨[], 0⟩ "jobs").2).topics "jobs" = some ⟨"jobs", 0⟩ ∧
    findTopic ((publishMessages busSeq ⟨[("jobs", ⟨"jobs", 0⟩)], 1⟩ "other"
        [⟨"a", none⟩]).2.1).topics "jobs" = some ⟨"jobs", 0⟩ ∧
    findTopic ((createTopic busSeq ⟨[("jobs", ⟨"jobs", 0⟩)], 1⟩ "jobs").2).topics "jobs"
      = some ⟨"jobs", 1⟩ :=
  ⟨topic_cache_lifetime.1 ⟨[("jobs", ⟨"jobs", 0⟩)], 1⟩ "jobs" ⟨"jobs", 0⟩ rfl,
   (topic_cache_lifetime.2.1 ⟨[], 0⟩ "jobs" rfl).2,
   topic_cache_lifetime.2.2.2.2.1 busSeq ⟨[("jobs", ⟨"jobs", 0⟩)], 1⟩ "other"
     [⟨"a", none⟩] "jobs" ⟨"jobs", 0⟩ rfl,
   topic_cache_lifetime.2.2.2.2.2.2 busSeq ⟨[("jobs", ⟨"jobs", 0⟩)], 1⟩ "jobs" rfl⟩
